import Mathlib

/-!
Shallow embedding of the DogNFT record-store service (src/api.py).

The store is the list of rows of the single `nfts` table, in insertion
order.  Each HTTP handler becomes a function from its request data and the
current store to a response (or an `ApiError`, modelling a raised
`HTTPException`) together with the post-call store.  Timestamps are
modelled as natural numbers (`datetime.utcnow` becomes a `now` parameter
to record creation).
-/

namespace DogNFT

/-- An attribute entry: a JSON object with string keys and string values,
modelled as an association list (the source stores `attributes` opaquely). -/
abbrev AttrDict := List (String × String)

/-- A row of the `nfts` table (class `NFT` in src/api.py, lines 32-46). -/
structure NFT where
  id : String
  name : String
  description : Option String
  dogKey : String
  walletAddress : String
  attributes : Option (List AttrDict)
  status : String
  progress : Nat
  imageUrl : Option String
  contractAddress : Option String
  tokenId : Option String
  createdAt : Nat
  mintedAt : Option Nat
deriving DecidableEq

/-- The database: all rows of the `nfts` table in insertion order. -/
abbrev Store := List NFT

/-- A raised `HTTPException`: HTTP status plus the `detail` body
`{error, code}`. -/
structure ApiError where
  status : Nat
  error : String
  code : String
deriving DecidableEq

structure CheckNameRequest where
  name : String
  walletAddress : String
deriving DecidableEq

structure CheckNameResponse where
  available : Bool
  message : String
deriving DecidableEq

structure CheckKeyRequest where
  dogKey : String
  walletAddress : String
deriving DecidableEq

structure CheckKeyResponse where
  valid : Bool
  unique : Bool
  message : String
deriving DecidableEq

structure GenerateNFTRequest where
  name : String
  description : Option String
  dogKey : String
  walletAddress : String
  attributes : Option (List AttrDict)
deriving DecidableEq

structure GenerateNFTResponse where
  id : String
  status : String
  name : String
  description : Option String
  dogKey : String
  walletAddress : String
  contractAddress : Option String
  tokenId : Option String
  attributes : Option (List AttrDict)
  createdAt : Nat
  mintedAt : Option Nat
  message : String
deriving DecidableEq

structure NFTStatusResponse where
  id : String
  status : String
  progress : Nat
  imageUrl : Option String
  walletAddress : String
  contractAddress : Option String
  tokenId : Option String
  message : String
deriving DecidableEq

/-- One element of the `nfts` list returned by the collection endpoint
(the dict built in src/api.py, lines 346-361). -/
structure NFTListItem where
  id : String
  name : String
  status : String
  imageUrl : Option String
  dogKey : String
  walletAddress : String
  contractAddress : Option String
  tokenId : Option String
  attributes : Option (List AttrDict)
  createdAt : Nat
  mintedAt : Option Nat
deriving DecidableEq

structure NFTCollectionResponse where
  nfts : List NFTListItem
deriving DecidableEq

/-- POST /api/nft/check-name (src/api.py `check_name`, lines 228-239).
Pure query: the returned store is the input store. -/
def check_name (request : CheckNameRequest) (db : Store) : CheckNameResponse × Store :=
  match db.find? (fun nft => nft.name == request.name) with
  | some _ => ({ available := false, message := "NFT name is already taken" }, db)
  | none => ({ available := true, message := "NFT name is available" }, db)

/-- POST /api/nft/check-key (src/api.py `check_key`, lines 242-253).
Pure query: the returned store is the input store. -/
def check_key (request : CheckKeyRequest) (db : Store) : CheckKeyResponse × Store :=
  match db.find? (fun nft => nft.dogKey == request.dogKey) with
  | some _ => ({ valid := true, unique := false, message := "Dog key is valid but not unique" }, db)
  | none => ({ valid := true, unique := true, message := "Dog key is valid and unique" }, db)

/-- The 400 DUPLICATE_KEY error raised by `generate_nft` (src/api.py line 269). -/
def duplicateKeyError : ApiError :=
  { status := 400, error := "Dog key must be unique", code := "DUPLICATE_KEY" }

/-- POST /api/nft/generate (src/api.py `generate_nft`, lines 256-301).
Rejects a duplicate `dogKey`; otherwise inserts a row with
`id = "nft_" ++ (row count + 1)`, `status = "generating"`, `progress = 0`,
commits, then sets `progress = 50` in a second write and commits again.
The response dict carries no `progress` field. -/
def generate_nft (request : GenerateNFTRequest) (now : Nat) (db : Store) :
    Except ApiError GenerateNFTResponse × Store :=
  match db.find? (fun nft => nft.dogKey == request.dogKey) with
  | some _ => (Except.error duplicateKeyError, db)
  | none =>
    let new_nft : NFT :=
      { id := "nft_" ++ toString (db.length + 1),
        name := request.name,
        description := request.description,
        dogKey := request.dogKey,
        walletAddress := request.walletAddress,
        attributes := request.attributes,
        status := "generating",
        progress := 0,
        imageUrl := none,
        contractAddress := none,
        tokenId := none,
        createdAt := now,
        mintedAt := none }
    let new_nft : NFT := { new_nft with progress := 50 }
    (Except.ok
      { id := new_nft.id,
        status := new_nft.status,
        name := new_nft.name,
        description := new_nft.description,
        dogKey := new_nft.dogKey,
        walletAddress := new_nft.walletAddress,
        contractAddress := new_nft.contractAddress,
        tokenId := new_nft.tokenId,
        attributes := new_nft.attributes,
        createdAt := new_nft.createdAt,
        mintedAt := new_nft.mintedAt,
        message := "NFT generation started" },
      db ++ [new_nft])

/-- The 404 NFT_NOT_FOUND error raised by `get_nft_status` (src/api.py line 314). -/
def nftNotFound : ApiError :=
  { status := 404, error := "NFT not found", code := "NFT_NOT_FOUND" }

/-- The row filter of the status endpoint: both `id` and `walletAddress`
must match (src/api.py line 312). -/
def statusPred (id walletAddress : String) (nft : NFT) : Bool :=
  nft.id == id && nft.walletAddress == walletAddress

/-- The body of a status response for a row (src/api.py lines 323-332). -/
def statusResponse (nft : NFT) : NFTStatusResponse :=
  { id := nft.id,
    status := nft.status,
    progress := nft.progress,
    imageUrl := nft.imageUrl,
    walletAddress := nft.walletAddress,
    contractAddress := nft.contractAddress,
    tokenId := nft.tokenId,
    message := "NFT status retrieved" }

/-- Replace the first element satisfying `p` by its image under `f`
(the effect of mutating the row returned by `.first()` and committing). -/
def updateFirst (p : NFT → Bool) (f : NFT → NFT) : Store → Store
  | [] => []
  | x :: xs => if p x then f x :: xs else x :: updateFirst p f xs

/-- The row mutation of the status endpoint (src/api.py lines 317-320):
`progress = min(progress + 25, 100)`; on reaching 100, `status = "ready"`
and `imageUrl` becomes the deterministic URL built from the request's `id`. -/
def advanceRow (id : String) (nft : NFT) : NFT :=
  let progress := min (nft.progress + 25) 100
  { nft with
    progress := progress,
    status := if progress == 100 then "ready" else nft.status,
    imageUrl :=
      if progress == 100 then some ("https://example.com/nft/" ++ id ++ ".png")
      else nft.imageUrl }

/-- GET /api/nft/status/:id (src/api.py `get_nft_status`, lines 304-332).
Looks up the first row matching `(id, walletAddress)`; 404 if none.  If the
row's status is "generating", advances `progress` by 25 capped at 100 and,
on reaching 100, sets status "ready" and a deterministic `imageUrl`; the
mutation is committed to the store. -/
def get_nft_status (id walletAddress : String) (db : Store) :
    Except ApiError NFTStatusResponse × Store :=
  match db.find? (statusPred id walletAddress) with
  | none => (Except.error nftNotFound, db)
  | some nft =>
    if nft.status == "generating" then
      let nft' := advanceRow id nft
      (Except.ok (statusResponse nft'), updateFirst (statusPred id walletAddress) (fun _ => nft') db)
    else
      (Except.ok (statusResponse nft), db)

/-- The 404 NO_NFTS error raised by `get_nft_collection` (src/api.py line 344). -/
def noNftsError : ApiError :=
  { status := 404, error := "No NFTs found for this wallet", code := "NO_NFTS" }

/-- The dict built for each row by the collection endpoint
(src/api.py lines 346-361). -/
def toListItem (nft : NFT) : NFTListItem :=
  { id := nft.id,
    name := nft.name,
    status := nft.status,
    imageUrl := nft.imageUrl,
    dogKey := nft.dogKey,
    walletAddress := nft.walletAddress,
    contractAddress := nft.contractAddress,
    tokenId := nft.tokenId,
    attributes := nft.attributes,
    createdAt := nft.createdAt,
    mintedAt := nft.mintedAt }

/-- GET /api/nft/collection/:walletAddress (src/api.py `get_nft_collection`,
lines 335-363).  Pure query: the returned store is the input store. -/
def get_nft_collection (walletAddress : String) (db : Store) :
    Except ApiError NFTCollectionResponse × Store :=
  let nfts := db.filter (fun nft => nft.walletAddress == walletAddress)
  if nfts.isEmpty then (Except.error noNftsError, db)
  else (Except.ok { nfts := nfts.map toListItem }, db)

/-- A JSON value, for modelling the serialized response bodies. -/
inductive Json where
  | str : String → Json
  | num : Nat → Json
  | null : Json
  | arr : List Json → Json
  | obj : List (String × Json) → Json

/-- Serialize an optional string (JSON null when absent). -/
def optStrJson : Option String → Json
  | some s => Json.str s
  | none => Json.null

/-- Serialize an optional timestamp (ISO string in the source, modelled as
its numeric value; JSON null when absent). -/
def optNatJson : Option Nat → Json
  | some n => Json.num n
  | none => Json.null

/-- Serialize one attribute dict. -/
def attrJson (a : AttrDict) : Json :=
  Json.obj (a.map (fun kv => (kv.1, Json.str kv.2)))

/-- Serialize the optional attribute list. -/
def optAttrsJson : Option (List AttrDict) → Json
  | some l => Json.arr (l.map attrJson)
  | none => Json.null

/-- The JSON object returned by a successful generate call: exactly the
keys of the dict literal in src/api.py lines 288-301, in order.  Note the
dict has no "progress" key. -/
def generateNftResponseBody (r : GenerateNFTResponse) : List (String × Json) :=
  [("id", Json.str r.id),
   ("status", Json.str r.status),
   ("name", Json.str r.name),
   ("description", optStrJson r.description),
   ("dogKey", Json.str r.dogKey),
   ("walletAddress", Json.str r.walletAddress),
   ("contractAddress", optStrJson r.contractAddress),
   ("tokenId", optStrJson r.tokenId),
   ("attributes", optAttrsJson r.attributes),
   ("createdAt", Json.num r.createdAt),
   ("mintedAt", optNatJson r.mintedAt),
   ("message", Json.str r.message)]

/-- The responses of `n` sequential calls to the status endpoint with the
same `id` and `walletAddress`, each call running on the store left by the
previous one. -/
def advanceTrace (id walletAddress : String) (db : Store) : Nat → List (Except ApiError NFTStatusResponse)
  | 0 => []
  | n + 1 =>
    let c := get_nft_status id walletAddress db
    c.1 :: advanceTrace id walletAddress c.2 n

/-- The stores reachable from the empty table by the service's operations.
Every handler's post-call store is reachable from a reachable store; the
two pure queries and the collection endpoint return their input store. -/
inductive Reachable : Store → Prop
  | empty : Reachable []
  | create {db : Store} {request : GenerateNFTRequest} {now : Nat}
      {out : Except ApiError GenerateNFTResponse} {db' : Store} :
      Reachable db → generate_nft request now db = (out, db') → Reachable db'
  | advance {db : Store} {id walletAddress : String}
      {out : Except ApiError NFTStatusResponse} {db' : Store} :
      Reachable db → get_nft_status id walletAddress db = (out, db') → Reachable db'
  | checkName {db : Store} {request : CheckNameRequest} :
      Reachable db → Reachable (check_name request db).2
  | checkKey {db : Store} {request : CheckKeyRequest} :
      Reachable db → Reachable (check_key request db).2
  | listByOwner {db : Store} {walletAddress : String} :
      Reachable db → Reachable (get_nft_collection walletAddress db).2

/-- Invariant: a "ready" row has progress 100 and the deterministic
image URL derived from its id. -/
def ReadyInv (db : Store) : Prop :=
  ∀ r ∈ db, r.status = "ready" →
    r.imageUrl = some ("https://example.com/nft/" ++ r.id ++ ".png") ∧ r.progress = 100

/-- No two distinct rows share an `id` (the `nfts` table's primary key). -/
def IdsUnique (db : Store) : Prop :=
  db.Pairwise (fun a b => a.id ≠ b.id)

/-- No two distinct rows share a `dogKey`. -/
def DogKeysUnique (db : Store) : Prop :=
  db.Pairwise (fun a b => a.dogKey ≠ b.dogKey)

/-- No two distinct rows share a `name`. -/
def NamesUnique (db : Store) : Prop :=
  db.Pairwise (fun a b => a.name ≠ b.name)

/-- The fields of a row other than `progress`, `status` and `imageUrl`
coincide. -/
def FrameEq (a b : NFT) : Prop :=
  a.id = b.id ∧ a.name = b.name ∧ a.description = b.description ∧
  a.dogKey = b.dogKey ∧ a.walletAddress = b.walletAddress ∧
  a.attributes = b.attributes ∧ a.contractAddress = b.contractAddress ∧
  a.tokenId = b.tokenId ∧ a.createdAt = b.createdAt ∧ a.mintedAt = b.mintedAt

/-- The demo creation request of the spec's scenario. -/
def demoReq : GenerateNFTRequest :=
  { name := "CryptoDog #1", description := none, dogKey := "KEY_1",
    walletAddress := "0xabc", attributes := none }

/-- The row stored by `generate_nft demoReq 0 []` (after the second write
that sets progress to 50). -/
def demoRec : NFT :=
  { id := "nft_1", name := "CryptoDog #1", description := none, dogKey := "KEY_1",
    walletAddress := "0xabc", attributes := none, status := "generating",
    progress := 50, imageUrl := none, contractAddress := none, tokenId := none,
    createdAt := 0, mintedAt := none }

/-- The response of `generate_nft demoReq 0 []`. -/
def demoResp : GenerateNFTResponse :=
  { id := "nft_1", status := "generating", name := "CryptoDog #1",
    description := none, dogKey := "KEY_1", walletAddress := "0xabc",
    contractAddress := none, tokenId := none, attributes := none,
    createdAt := 0, mintedAt := none, message := "NFT generation started" }

/-- The store after the demo creation. -/
def demoStore1 : Store := [demoRec]

/-- The demo row after one status call (progress 75). -/
def demoRec75 : NFT := { demoRec with progress := 75 }

/-- The store after the demo creation and one status call. -/
def demoStore2 : Store := [demoRec75]

/-- The demo row after two status calls (ready, progress 100, image URL set). -/
def demoRecReady : NFT :=
  { demoRec with
    progress := 100,
    status := "ready",
    imageUrl := some "https://example.com/nft/nft_1.png" }

/-- The store after the demo creation and two status calls. -/
def demoStore3 : Store := [demoRecReady]

/-- A second creation request reusing the demo name with a fresh dogKey. -/
def demoReq2 : GenerateNFTRequest :=
  { name := "CryptoDog #1", description := none, dogKey := "KEY_2",
    walletAddress := "0xdef", attributes := none }

/-- The row stored by `generate_nft demoReq2 0 demoStore1`. -/
def demoRec2 : NFT :=
  { id := "nft_2", name := "CryptoDog #1", description := none, dogKey := "KEY_2",
    walletAddress := "0xdef", attributes := none, status := "generating",
    progress := 50, imageUrl := none, contractAddress := none, tokenId := none,
    createdAt := 0, mintedAt := none }

/-- A store holding two records that share the name "CryptoDog #1". -/
def demoStoreDupName : Store := [demoRec, demoRec2]

/-- The progress reported by one entry of a status-call trace. -/
def traceProgress : Except ApiError NFTStatusResponse → Option Nat
  | Except.ok r => some r.progress
  | Except.error _ => none

/-- The status string reported by one entry of a status-call trace. -/
def traceStatus : Except ApiError NFTStatusResponse → Option String
  | Except.ok r => some r.status
  | Except.error _ => none

/-- The image URL reported by one entry of a status-call trace. -/
def traceImageUrl : Except ApiError NFTStatusResponse → Option (Option String)
  | Except.ok r => some r.imageUrl
  | Except.error _ => none

/-- The row inserted by a successful generate call, after the second write
that sets progress to 50 (src/api.py lines 271-286). -/
def newRecord (request : GenerateNFTRequest) (now : Nat) (db : Store) : NFT :=
  { id := "nft_" ++ toString (db.length + 1),
    name := request.name,
    description := request.description,
    dogKey := request.dogKey,
    walletAddress := request.walletAddress,
    attributes := request.attributes,
    status := "generating",
    progress := 50,
    imageUrl := none,
    contractAddress := none,
    tokenId := none,
    createdAt := now,
    mintedAt := none }

/-- The response of a successful generate call (src/api.py lines 288-301). -/
def newResponse (request : GenerateNFTRequest) (now : Nat) (db : Store) : GenerateNFTResponse :=
  { id := (newRecord request now db).id,
    status := "generating",
    name := request.name,
    description := request.description,
    dogKey := request.dogKey,
    walletAddress := request.walletAddress,
    contractAddress := none,
    tokenId := none,
    attributes := request.attributes,
    createdAt := now,
    mintedAt := none,
    message := "NFT generation started" }

theorem updateFirst_length (p : NFT → Bool) (f : NFT → NFT) (l : Store) :
    (updateFirst p f l).length = l.length := by
  induction l with
  | nil => rfl
  | cons x xs ih =>
    by_cases h : p x
    · simp [updateFirst, h]
    · simp [updateFirst, h, ih]

theorem updateFirst_get (p : NFT → Bool) (f : NFT → NFT) (l : Store) (j : Nat)
    (hj : j < l.length) (hj' : j < (updateFirst p f l).length) :
    (updateFirst p f l).get ⟨j, hj'⟩ = l.get ⟨j, hj⟩ ∨
      ((updateFirst p f l).get ⟨j, hj'⟩ = f (l.get ⟨j, hj⟩) ∧
        l.find? p = some (l.get ⟨j, hj⟩)) := by
  induction l generalizing j with
  | nil => exact absurd hj (Nat.not_lt_zero j)
  | cons x xs ih =>
    by_cases h : p x
    · cases j with
      | zero =>
        right
        refine ⟨?_, ?_⟩
        · simp [updateFirst, h]
        · simp [List.find?_cons_of_pos _ h]
      | succ n =>
        left
        simp [updateFirst, h]
    · cases j with
      | zero =>
        left
        simp [updateFirst, h]
      | succ n =>
        have hn : n < xs.length := by simpa using hj
        have hn' : n < (updateFirst p f xs).length := by
          simpa [updateFirst_length] using hn
        rcases ih n hn hn' with h1 | ⟨h1, h2⟩
        · left
          simpa [updateFirst, h] using h1
        · right
          refine ⟨?_, ?_⟩
          · simpa [updateFirst, h] using h1
          · have hcons : List.find? p (x :: xs) = List.find? p xs :=
              List.find?_cons_of_neg _ (by simp [h])
            rw [hcons]
            simpa using h2

theorem mem_updateFirst {p : NFT → Bool} {f : NFT → NFT} {l : Store} {x : NFT}
    (hx : x ∈ updateFirst p f l) :
    x ∈ l ∨ ∃ y, l.find? p = some y ∧ x = f y := by
  induction l with
  | nil => simp [updateFirst] at hx
  | cons a l ih =>
    by_cases h : p a
    · simp only [updateFirst, if_pos h, List.mem_cons] at hx
      rcases hx with hx | hx
      · exact Or.inr ⟨a, List.find?_cons_of_pos _ h, hx⟩
      · exact Or.inl (List.mem_cons_of_mem _ hx)
    · simp only [updateFirst, if_neg h, List.mem_cons] at hx
      rcases hx with hx | hx
      · exact Or.inl (by simp [hx])
      · rcases ih hx with h1 | ⟨y, hy, hxy⟩
        · exact Or.inl (List.mem_cons_of_mem _ h1)
        · exact Or.inr ⟨y, by rw [List.find?_cons_of_neg _ (by simp [h])]; exact hy, hxy⟩

theorem find?_append_singleton {q : NFT → Bool} {l : Store} {a : NFT}
    (hl : ∀ x ∈ l, q x = false) (ha : q a = true) :
    (l ++ [a]).find? q = some a := by
  induction l with
  | nil => simp [List.find?_cons_of_pos _ ha]
  | cons x xs ih =>
    have hx : q x = false := hl x (List.mem_cons_self x xs)
    rw [List.cons_append, List.find?_cons_of_neg _ (by simp [hx])]
    exact ih (fun y hy => hl y (List.mem_cons_of_mem _ hy))

theorem updateFirst_append_singleton {q : NFT → Bool} {f : NFT → NFT} {l : Store} {a : NFT}
    (hl : ∀ x ∈ l, q x = false) :
    updateFirst q f (l ++ [a]) = l ++ [if q a then f a else a] := by
  induction l with
  | nil =>
    by_cases h : q a
    · simp [updateFirst, h]
    · simp [updateFirst, h]
  | cons x xs ih =>
    have hx : q x = false := hl x (List.mem_cons_self x xs)
    rw [List.cons_append, updateFirst, if_neg (by simp [hx])]
    rw [ih (fun y hy => hl y (List.mem_cons_of_mem _ hy)), List.cons_append]

theorem check_name_state (request : CheckNameRequest) (db : Store) :
    (check_name request db).2 = db := by
  cases h : db.find? (fun nft => nft.name == request.name) <;> simp [check_name, h]

theorem check_key_state (request : CheckKeyRequest) (db : Store) :
    (check_key request db).2 = db := by
  cases h : db.find? (fun nft => nft.dogKey == request.dogKey) <;> simp [check_key, h]

theorem get_nft_collection_state (walletAddress : String) (db : Store) :
    (get_nft_collection walletAddress db).2 = db := by
  by_cases h : (db.filter (fun nft => nft.walletAddress == walletAddress)).isEmpty <;>
    simp [get_nft_collection, h]

theorem generate_nft_of_dup {request : GenerateNFTRequest} {now : Nat} {db : Store} {a : NFT}
    (h : db.find? (fun nft => nft.dogKey == request.dogKey) = some a) :
    generate_nft request now db = (Except.error duplicateKeyError, db) := by
  unfold generate_nft
  rw [h]

theorem generate_nft_of_fresh {request : GenerateNFTRequest} {now : Nat} {db : Store}
    (h : db.find? (fun nft => nft.dogKey == request.dogKey) = none) :
    generate_nft request now db =
      (Except.ok (newResponse request now db), db ++ [newRecord request now db]) := by
  unfold generate_nft
  rw [h]
  rfl

theorem generate_nft_ok_inv {request : GenerateNFTRequest} {now : Nat} {db : Store}
    {resp : GenerateNFTResponse} {db' : Store}
    (h : generate_nft request now db = (Except.ok resp, db')) :
    db.find? (fun nft => nft.dogKey == request.dogKey) = none ∧
      resp = newResponse request now db ∧ db' = db ++ [newRecord request now db] := by
  cases hf : db.find? (fun nft => nft.dogKey == request.dogKey) with
  | none =>
    rw [generate_nft_of_fresh hf] at h
    obtain ⟨h1, h2⟩ := Prod.mk.injEq .. ▸ h
    exact ⟨rfl, (Except.ok.injEq .. ▸ h1).symm, h2.symm⟩
  | some a =>
    rw [generate_nft_of_dup hf] at h
    exact absurd (Prod.mk.injEq .. ▸ h).1 (by simp)

theorem get_nft_status_of_none {i w : String} {db : Store}
    (h : db.find? (statusPred i w) = none) :
    get_nft_status i w db = (Except.error nftNotFound, db) := by
  unfold get_nft_status
  rw [h]

theorem get_nft_status_of_generating {i w : String} {db : Store} {nft : NFT}
    (h : db.find? (statusPred i w) = some nft) (hst : nft.status = "generating") :
    get_nft_status i w db =
      (Except.ok (statusResponse (advanceRow i nft)),
        updateFirst (statusPred i w) (fun _ => advanceRow i nft) db) := by
  unfold get_nft_status
  rw [h]
  simp [hst]

theorem get_nft_status_of_done {i w : String} {db : Store} {nft : NFT}
    (h : db.find? (statusPred i w) = some nft) (hst : nft.status ≠ "generating") :
    get_nft_status i w db = (Except.ok (statusResponse nft), db) := by
  unfold get_nft_status
  rw [h]
  simp [hst]

theorem advanceRow_id (i : String) (nft : NFT) : (advanceRow i nft).id = nft.id := rfl

theorem advanceRow_progress (i : String) (nft : NFT) :
    (advanceRow i nft).progress = min (nft.progress + 25) 100 := rfl

theorem advanceRow_status (i : String) (nft : NFT) :
    (advanceRow i nft).status =
      if min (nft.progress + 25) 100 == 100 then "ready" else nft.status := rfl

theorem advanceRow_imageUrl (i : String) (nft : NFT) :
    (advanceRow i nft).imageUrl =
      if min (nft.progress + 25) 100 == 100 then
        some ("https://example.com/nft/" ++ i ++ ".png")
      else nft.imageUrl := rfl

theorem frameEq_refl (a : NFT) : FrameEq a a :=
  ⟨rfl, rfl, rfl, rfl, rfl, rfl, rfl, rfl, rfl, rfl⟩

theorem frameEq_advanceRow (i : String) (nft : NFT) : FrameEq (advanceRow i nft) nft :=
  ⟨rfl, rfl, rfl, rfl, rfl, rfl, rfl, rfl, rfl, rfl⟩

theorem advance_frame {i w : String} {db : Store} {out : Except ApiError NFTStatusResponse}
    {db' : Store} (h : get_nft_status i w db = (out, db')) :
    db'.length = db.length ∧
      ∀ (j : Nat) (hj : j < db.length) (hj' : j < db'.length),
        FrameEq (db'.get ⟨j, hj'⟩) (db.get ⟨j, hj⟩) ∧
          (statusPred i w (db.get ⟨j, hj⟩) = false → db'.get ⟨j, hj'⟩ = db.get ⟨j, hj⟩) := by
  cases hf : db.find? (statusPred i w) with
  | none =>
    rw [get_nft_status_of_none hf] at h
    obtain ⟨-, h2⟩ := Prod.mk.injEq .. ▸ h
    subst h2
    exact ⟨rfl, fun j hj hj' => ⟨frameEq_refl _, fun _ => rfl⟩⟩
  | some nft =>
    by_cases hst : nft.status = "generating"
    · rw [get_nft_status_of_generating hf hst] at h
      obtain ⟨-, h2⟩ := Prod.mk.injEq .. ▸ h
      subst h2
      refine ⟨updateFirst_length .., fun j hj hj' => ?_⟩
      rcases updateFirst_get (statusPred i w) (fun _ => advanceRow i nft) db j hj hj'
        with h1 | ⟨h1, h2⟩
      · exact ⟨h1 ▸ frameEq_refl _, fun _ => h1⟩
      · have hj_eq : db.get ⟨j, hj⟩ = nft := by
          rw [hf] at h2
          exact (Option.some.injEq .. ▸ h2).symm
        constructor
        · rw [h1, hj_eq]
          exact frameEq_advanceRow i nft
        · intro hfalse
          have : statusPred i w nft = true := List.find?_some hf
          rw [hj_eq] at hfalse
          exact absurd this (by simp [hfalse])
    · rw [get_nft_status_of_done hf hst] at h
      obtain ⟨-, h2⟩ := Prod.mk.injEq .. ▸ h
      subst h2
      exact ⟨rfl, fun j hj hj' => ⟨frameEq_refl _, fun _ => rfl⟩⟩

theorem readyInv_of_reachable {db : Store} (h : Reachable db) : ReadyInv db := by
  induction h with
  | empty => intro r hr; cases hr
  | @create db request now out db' hdb heq ih =>
    cases hf : db.find? (fun nft => nft.dogKey == request.dogKey) with
    | some a =>
      rw [generate_nft_of_dup hf] at heq
      obtain ⟨-, h2⟩ := Prod.mk.injEq .. ▸ heq
      subst h2
      exact ih
    | none =>
      rw [generate_nft_of_fresh hf] at heq
      obtain ⟨-, h2⟩ := Prod.mk.injEq .. ▸ heq
      subst h2
      intro r hr hready
      rcases List.mem_append.mp hr with h1 | h1
      · exact ih r h1 hready
      · have hrn : r = newRecord request now db := List.mem_singleton.mp h1
        rw [hrn] at hready
        exact absurd hready (by simp [newRecord])
  | @advance db i w out db' hdb heq ih =>
    cases hf : db.find? (statusPred i w) with
    | none =>
      rw [get_nft_status_of_none hf] at heq
      obtain ⟨-, h2⟩ := Prod.mk.injEq .. ▸ heq
      subst h2
      exact ih
    | some nft =>
      by_cases hst : nft.status = "generating"
      · rw [get_nft_status_of_generating hf hst] at heq
        obtain ⟨-, h2⟩ := Prod.mk.injEq .. ▸ heq
        subst h2
        intro r hr hready
        rcases mem_updateFirst hr with h1 | ⟨y, hy, hry⟩
        · exact ih r h1 hready
        · subst hry
          have hid : nft.id = i := by
            have := List.find?_some hf
            simp [statusPred] at this
            exact this.1
          by_cases hp : min (nft.progress + 25) 100 = 100
          · have hpb : (min (nft.progress + 25) 100 == 100) = true := beq_iff_eq.mpr hp
            constructor
            · simp only [advanceRow_imageUrl, advanceRow_id, hpb, if_true]
              rw [hid]
            · simp only [advanceRow_progress, hp]
          · exfalso
            have hpb : (min (nft.progress + 25) 100 == 100) = false := by
              simp [hp]
            rw [advanceRow_status, hpb] at hready
            simp only [Bool.false_eq_true, if_false] at hready
            rw [hst] at hready
            exact absurd hready (by decide)
      · rw [get_nft_status_of_done hf hst] at heq
        obtain ⟨-, h2⟩ := Prod.mk.injEq .. ▸ heq
        subst h2
        exact ih
  | checkName hdb ih => rw [check_name_state]; exact ih
  | checkKey hdb ih => rw [check_key_state]; exact ih
  | listByOwner hdb ih => rw [get_nft_collection_state]; exact ih

theorem dogKeysUnique_of_reachable {db : Store} (h : Reachable db) : DogKeysUnique db := by
  induction h with
  | empty => exact List.Pairwise.nil
  | @create db request now out db' hdb heq ih =>
    cases hf : db.find? (fun nft => nft.dogKey == request.dogKey) with
    | some a =>
      rw [generate_nft_of_dup hf] at heq
      obtain ⟨-, h2⟩ := Prod.mk.injEq .. ▸ heq
      subst h2
      exact ih
    | none =>
      rw [generate_nft_of_fresh hf] at heq
      obtain ⟨-, h2⟩ := Prod.mk.injEq .. ▸ heq
      subst h2
      rw [DogKeysUnique, List.pairwise_append]
      refine ⟨ih, List.pairwise_singleton .., fun a ha b hb => ?_⟩
      have hbk : b = newRecord request now db := List.mem_singleton.mp hb
      have hak : ¬(a.dogKey == request.dogKey) = true := List.find?_eq_none.mp hf a ha
      rw [hbk]
      intro hcontra
      exact hak (beq_iff_eq.mpr hcontra)
  | @advance db i w out db' hdb heq ih =>
    obtain ⟨hlen, hget⟩ := advance_frame heq
    rw [DogKeysUnique, List.pairwise_iff_get] at ih ⊢
    intro a b hab
    have ha : a.val < db.length := hlen ▸ a.isLt
    have hb : b.val < db.length := hlen ▸ b.isLt
    have h1 := (hget a.val ha a.isLt).1
    have h2 := (hget b.val hb b.isLt).1
    rw [h1.2.2.2.1, h2.2.2.2.1]
    exact ih ⟨a.val, ha⟩ ⟨b.val, hb⟩ hab
  | checkName hdb ih => rw [check_name_state]; exact ih
  | checkKey hdb ih => rw [check_key_state]; exact ih
  | listByOwner hdb ih => rw [get_nft_collection_state]; exact ih

theorem eq_of_mem_idsUnique :
    ∀ {db : Store} {r x : NFT}, IdsUnique db → r ∈ db → x ∈ db → x.id = r.id → x = r := by
  intro db
  induction db with
  | nil =>
    intro r x _ hr _ _
    cases hr
  | cons a l ih =>
    intro r x hu hr hx hid
    rw [IdsUnique, List.pairwise_cons] at hu
    obtain ⟨ha, hl⟩ := hu
    rcases List.mem_cons.mp hr with hr' | hr'
    · subst hr'
      rcases List.mem_cons.mp hx with hx' | hx'
      · exact hx'
      · exact absurd hid.symm (ha x hx')
    · rcases List.mem_cons.mp hx with hx' | hx'
      · subst hx'
        exact absurd hid (ha r hr')
      · exact ih hl hr' hx' hid

theorem find?_statusPred_none {db : Store} {i w : String} {r : NFT}
    (hu : IdsUnique db) (hr : r ∈ db) (hi : r.id = i) (hw : w ≠ r.walletAddress) :
    db.find? (statusPred i w) = none := by
  rw [List.find?_eq_none]
  intro x hx hpx
  simp [statusPred] at hpx
  obtain ⟨h1, h2⟩ := hpx
  have hxr : x = r := eq_of_mem_idsUnique hu hr hx (h1.trans hi.symm)
  rw [hxr] at h2
  exact hw h2.symm

theorem demoReach1 : Reachable demoStore1 :=
  Reachable.create Reachable.empty
    (show generate_nft demoReq 0 [] = (Except.ok demoResp, demoStore1) from rfl)

theorem demoReach2 : Reachable demoStore2 :=
  Reachable.advance demoReach1
    (show get_nft_status "nft_1" "0xabc" demoStore1 =
      (Except.ok (statusResponse demoRec75), demoStore2) from rfl)

theorem demoReach3 : Reachable demoStore3 :=
  Reachable.advance demoReach2
    (show get_nft_status "nft_1" "0xabc" demoStore2 =
      (Except.ok (statusResponse demoRecReady), demoStore3) from rfl)

theorem demoReachDupName : Reachable demoStoreDupName :=
  Reachable.create demoReach1
    (show generate_nft demoReq2 0 demoStore1 =
      (Except.ok (newResponse demoReq2 0 demoStore1), demoStoreDupName) from rfl)

/-- C2: creating a record whose `dogKey` equals the `dogKey` of any record
already in the store fails with the 400 DUPLICATE_KEY error and leaves the
store unchanged, so the record count is invariant. -/
theorem c2_duplicate_key (request : GenerateNFTRequest) (now : Nat) (db : Store) (r : NFT)
    (hr : r ∈ db) (hk : r.dogKey = request.dogKey) :
    generate_nft request now db = (Except.error duplicateKeyError, db) ∧
      duplicateKeyError.status = 400 ∧ duplicateKeyError.code = "DUPLICATE_KEY" ∧
      (generate_nft request now db).2.length = db.length := by
  cases hf : db.find? (fun nft => nft.dogKey == request.dogKey) with
  | none =>
    have hnot := List.find?_eq_none.mp hf r hr
    exact absurd (beq_iff_eq.mpr hk) hnot
  | some a =>
    have hcall := @generate_nft_of_dup request now db a hf
    exact ⟨hcall, rfl, rfl, by rw [hcall]⟩

/-- C2 witness: a second creation with the demo `dogKey` fails with
DUPLICATE_KEY and leaves the one-record store unchanged. -/
theorem c2_duplicate_key_witness :
    generate_nft demoReq 5 demoStore1 = (Except.error duplicateKeyError, demoStore1) ∧
      duplicateKeyError.status = 400 ∧ duplicateKeyError.code = "DUPLICATE_KEY" ∧
      (generate_nft demoReq 5 demoStore1).2.length = demoStore1.length :=
  c2_duplicate_key demoReq 5 demoStore1 demoRec (List.mem_singleton.mpr rfl) rfl

/-- C3: in every reachable store, a record with status "ready" has
progress 100 and a non-null image URL equal to the deterministic value
derived from its id; the invariant is preserved by every operation. -/
theorem c3_ready_invariant (db : Store) (h : Reachable db) : ReadyInv db :=
  readyInv_of_reachable h

/-- C3 witness: the invariant holds in the concrete reachable store whose
single record has reached the ready state. -/
theorem c3_ready_invariant_witness : ReadyInv demoStore3 :=
  c3_ready_invariant demoStore3 demoReach3

/-- C4: a status call on a record that is already "ready" (found by
matching id and owner) changes nothing: the store is returned unchanged
and the response echoes the stored status "ready", progress 100 and the
unchanged image URL. -/
theorem c4_ready_idempotent (db : Store) (i w : String) (r : NFT)
    (hreach : Reachable db) (hfind : db.find? (statusPred i w) = some r)
    (hready : r.status = "ready") :
    get_nft_status i w db = (Except.ok (statusResponse r), db) ∧ r.progress = 100 ∧
      (statusResponse r).progress = r.progress ∧
      (statusResponse r).imageUrl = r.imageUrl ∧
      (statusResponse r).status = "ready" := by
  have hcall := get_nft_status_of_done hfind (by rw [hready]; decide)
  have hmem := List.mem_of_find?_eq_some hfind
  have hinv := readyInv_of_reachable hreach r hmem hready
  exact ⟨hcall, hinv.2, rfl, rfl, hready⟩

/-- C4 witness: the idempotence of the status call on the concrete ready
record of the demo store. -/
theorem c4_ready_idempotent_witness :
    get_nft_status "nft_1" "0xabc" demoStore3 =
      (Except.ok (statusResponse demoRecReady), demoStore3) ∧
      demoRecReady.progress = 100 ∧
      (statusResponse demoRecReady).progress = demoRecReady.progress ∧
      (statusResponse demoRecReady).imageUrl = demoRecReady.imageUrl ∧
      (statusResponse demoRecReady).status = "ready" :=
  c4_ready_idempotent demoStore3 "nft_1" "0xabc" demoRecReady demoReach3 rfl rfl

/-- C5: counterexample.  Name uniqueness is not an invariant: the create
path checks only `dogKey`, so a reachable store may hold two distinct
records with the same name. -/
theorem c5_counterexample : ¬ ∀ db : Store, Reachable db → NamesUnique db := by
  intro h
  have h2 := h demoStoreDupName demoReachDupName
  rw [NamesUnique] at h2
  simp only [demoStoreDupName] at h2
  rw [List.pairwise_cons] at h2
  exact h2.1 demoRec2 (List.mem_cons_self demoRec2 []) rfl

/-- C5 (amended): in every reachable store it is `dogKey`, not `name`,
that is unique across all records: no two distinct records share a
`dogKey`, and this holds after every operation including record creation
(which does not enforce name uniqueness). -/
theorem c5_dogkey_unique (db : Store) (h : Reachable db) : DogKeysUnique db :=
  dogKeysUnique_of_reachable h

/-- C5 witness: dogKey uniqueness in the concrete reachable two-record
store (whose records share a name but not a dogKey). -/
theorem c5_dogkey_unique_witness : DogKeysUnique demoStoreDupName :=
  c5_dogkey_unique demoStoreDupName demoReachDupName

/-- C6: a status call with the id of a stored record but a different
owner address fails with the 404 NFT_NOT_FOUND error and leaves the store
unchanged, and the observable result is the same as calling with an id
present in no record (ids are unique per the table's primary key). -/
theorem c6_wrong_owner (db : Store) (i w : String) (r : NFT)
    (hu : IdsUnique db) (hr : r ∈ db) (hi : r.id = i) (hw : w ≠ r.walletAddress) :
    get_nft_status i w db = (Except.error nftNotFound, db) ∧
      nftNotFound.status = 404 ∧ nftNotFound.code = "NFT_NOT_FOUND" ∧
      ∀ j w₂ : String, (∀ x ∈ db, x.id ≠ j) →
        get_nft_status j w₂ db = get_nft_status i w db := by
  have hnone := find?_statusPred_none hu hr hi hw
  have hcall := get_nft_status_of_none hnone
  refine ⟨hcall, rfl, rfl, fun j w₂ habs => ?_⟩
  have hnone2 : db.find? (statusPred j w₂) = none := by
    rw [List.find?_eq_none]
    intro x hx hpx
    simp [statusPred] at hpx
    exact habs x hx hpx.1
  rw [get_nft_status_of_none hnone2, hcall]

/-- C6 witness: on the demo store, a wrong owner and an absent id both
yield the identical 404 NFT_NOT_FOUND outcome. -/
theorem c6_wrong_owner_witness :
    get_nft_status "nft_1" "0xWRONG" demoStore1 = (Except.error nftNotFound, demoStore1) ∧
      get_nft_status "nft_ABSENT" "0xabc" demoStore1 =
        get_nft_status "nft_1" "0xWRONG" demoStore1 :=
  ⟨(c6_wrong_owner demoStore1 "nft_1" "0xWRONG" demoRec (List.pairwise_singleton _ _)
      (List.mem_singleton.mpr rfl) rfl (by decide)).1,
   (c6_wrong_owner demoStore1 "nft_1" "0xWRONG" demoRec (List.pairwise_singleton _ _)
      (List.mem_singleton.mpr rfl) rfl (by decide)).2.2.2 "nft_ABSENT" "0xabc" (by decide)⟩

/-- C7: listing by owner never mutates the store; it fails with the 404
NO_NFTS error exactly when no record has the given owner address, and
otherwise returns the matching records in storage order, each serialized
from its stored attributes. -/
theorem c7_list_by_owner (walletAddress : String) (db : Store) :
    (get_nft_collection walletAddress db).2 = db ∧
      ((get_nft_collection walletAddress db).1 = Except.error noNftsError ↔
        db.filter (fun nft => nft.walletAddress == walletAddress) = []) ∧
      noNftsError.status = 404 ∧ noNftsError.code = "NO_NFTS" ∧
      (db.filter (fun nft => nft.walletAddress == walletAddress) ≠ [] →
        (get_nft_collection walletAddress db).1 =
          Except.ok
            { nfts := (db.filter (fun nft => nft.walletAddress == walletAddress)).map toListItem }) := by
  by_cases h : (db.filter (fun nft => nft.walletAddress == walletAddress)).isEmpty
  · have hnil : db.filter (fun nft => nft.walletAddress == walletAddress) = [] :=
      List.isEmpty_iff.mp h
    refine ⟨get_nft_collection_state walletAddress db, ?_, rfl, rfl, fun hne => absurd hnil hne⟩
    simp [get_nft_collection, h, hnil]
  · have hne : db.filter (fun nft => nft.walletAddress == walletAddress) ≠ [] := by
      intro hc
      rw [hc] at h
      exact h rfl
    refine ⟨get_nft_collection_state walletAddress db, ?_, rfl, rfl, fun _ => ?_⟩
    · simp [get_nft_collection, h, hne]
    · simp [get_nft_collection, h]

/-- C7 witness: on the demo store, the demo owner receives exactly its
stored records and an unknown owner receives the NO_NFTS error. -/
theorem c7_list_by_owner_witness :
    (get_nft_collection "0xabc" demoStore1).1 =
      Except.ok
        { nfts := (demoStore1.filter (fun nft => nft.walletAddress == "0xabc")).map toListItem } ∧
      (get_nft_collection "0xzzz" demoStore1).1 = Except.error noNftsError :=
  ⟨(c7_list_by_owner "0xabc" demoStore1).2.2.2.2 (by decide),
   (c7_list_by_owner "0xzzz" demoStore1).2.1.mpr (by decide)⟩

/-- C8: counterexample.  The response of a successful create call carries
no `progress` field at all — its serialized body has no "progress" key —
so the claim that the response has `progress = 50` is false (the value 50
is only stored in the record). -/
theorem c8_counterexample :
    generate_nft demoReq 0 [] = (Except.ok demoResp, demoStore1) ∧
      (generateNftResponseBody demoResp).lookup "progress" = none :=
  ⟨rfl, rfl⟩

/-- C8 (amended): every successful create call returns a response with
status "generating" and no progress field in its body, while the record
it stores has progress 50 and status "generating" (the result of the
two-write creation behavior). -/
theorem c8_create_response (request : GenerateNFTRequest) (now : Nat) (db : Store)
    (resp : GenerateNFTResponse) (db' : Store)
    (h : generate_nft request now db = (Except.ok resp, db')) :
    resp.status = "generating" ∧
      (generateNftResponseBody resp).lookup "progress" = none ∧
      db'.getLast?.map (fun nft => nft.progress) = some 50 ∧
      db'.getLast?.map (fun nft => nft.status) = some "generating" := by
  obtain ⟨-, hresp, hdb⟩ := generate_nft_ok_inv h
  subst hresp
  subst hdb
  refine ⟨rfl, rfl, ?_, ?_⟩
  · rw [List.getLast?_concat]
    rfl
  · rw [List.getLast?_concat]
    rfl

/-- C8 witness: the demo creation call instantiating the amended claim. -/
theorem c8_create_response_witness :
    demoResp.status = "generating" ∧
      (generateNftResponseBody demoResp).lookup "progress" = none ∧
      demoStore1.getLast?.map (fun nft => nft.progress) = some 50 ∧
      demoStore1.getLast?.map (fun nft => nft.status) = some "generating" :=
  c8_create_response demoReq 0 [] demoResp demoStore1 rfl

/-- C9: a status call changes at most the progress, status and imageUrl
of the first record matching (id, owner): the store keeps its length,
every record keeps its id, name, description, dogKey, owner, attributes,
contractAddress, tokenId, createdAt and mintedAt, and every record not
matching the lookup is completely unchanged. -/
theorem c9_advance_frame (i w : String) (db : Store)
    (out : Except ApiError NFTStatusResponse) (db' : Store)
    (h : get_nft_status i w db = (out, db')) :
    db'.length = db.length ∧
      ∀ (j : Nat) (hj : j < db.length) (hj' : j < db'.length),
        FrameEq (db'.get ⟨j, hj'⟩) (db.get ⟨j, hj⟩) ∧
          (statusPred i w (db.get ⟨j, hj⟩) = false → db'.get ⟨j, hj'⟩ = db.get ⟨j, hj⟩) :=
  advance_frame h

/-- C9 witness: the demo record keeps its frame fields across the first
status call. -/
theorem c9_advance_frame_witness :
    FrameEq (demoStore2.get ⟨0, by decide⟩) (demoStore1.get ⟨0, by decide⟩) :=
  ((c9_advance_frame "nft_1" "0xabc" demoStore1
      (Except.ok (statusResponse demoRec75)) demoStore2 rfl).2 0 (by decide) (by decide)).1

/-- C10: the name-check and key-check endpoints ignore the supplied
wallet address — two calls differing only in wallet address return
identical responses — and neither mutates the store. -/
theorem c10_wallet_independent (db : Store) (n k w w' : String) :
    check_name { name := n, walletAddress := w } db =
      check_name { name := n, walletAddress := w' } db ∧
      check_key { dogKey := k, walletAddress := w } db =
        check_key { dogKey := k, walletAddress := w' } db ∧
      (check_name { name := n, walletAddress := w } db).2 = db ∧
      (check_key { dogKey := k, walletAddress := w } db).2 = db :=
  ⟨rfl, rfl, check_name_state _ db, check_key_state _ db⟩

theorem advanceRow_walletAddress (i : String) (nft : NFT) :
    (advanceRow i nft).walletAddress = nft.walletAddress := rfl

theorem advanceTrace_succ (i w : String) (db : Store) (n : Nat) :
    advanceTrace i w db (n + 1) =
      (get_nft_status i w db).1 :: advanceTrace i w (get_nft_status i w db).2 n := rfl

/-- C1: counterexample.  A record freshly produced by the create call
already has progress 50 (the two-write creation), so four sequential
status calls report progress 75, 100, 100, 100 — not 25, 50, 75, 100 as
claimed. -/
theorem c1_counterexample :
    generate_nft demoReq 0 [] = (Except.ok demoResp, demoStore1) ∧
      (advanceTrace demoResp.id "0xabc" demoStore1 4).map traceProgress =
        [some 75, some 100, some 100, some 100] ∧
      [some (75 : Nat), some 100, some 100, some 100] ≠
        [some 25, some 50, some 75, some 100] :=
  ⟨rfl, rfl, by decide⟩

/-- C1 (amended): for every record freshly produced by the create call
(whose id is fresh for the store) and polled with the matching owner,
four sequential status calls yield the progress sequence 75, 100, 100,
100, the status sequence generating, ready, ready, ready, and a null
imageUrl only in the first response, with the deterministic URL from the
2nd call on. -/
theorem c1_progress_sequence (request : GenerateNFTRequest) (now : Nat) (db : Store)
    (resp : GenerateNFTResponse) (db₁ : Store)
    (hgen : generate_nft request now db = (Except.ok resp, db₁))
    (hfresh : ∀ x ∈ db, x.id ≠ resp.id) :
    advanceTrace resp.id request.walletAddress db₁ 4 =
      [Except.ok
        { id := resp.id, status := "generating", progress := 75, imageUrl := none,
          walletAddress := request.walletAddress, contractAddress := none, tokenId := none,
          message := "NFT status retrieved" },
       Except.ok
        { id := resp.id, status := "ready", progress := 100,
          imageUrl := some ("https://example.com/nft/" ++ resp.id ++ ".png"),
          walletAddress := request.walletAddress, contractAddress := none, tokenId := none,
          message := "NFT status retrieved" },
       Except.ok
        { id := resp.id, status := "ready", progress := 100,
          imageUrl := some ("https://example.com/nft/" ++ resp.id ++ ".png"),
          walletAddress := request.walletAddress, contractAddress := none, tokenId := none,
          message := "NFT status retrieved" },
       Except.ok
        { id := resp.id, status := "ready", progress := 100,
          imageUrl := some ("https://example.com/nft/" ++ resp.id ++ ".png"),
          walletAddress := request.walletAddress, contractAddress := none, tokenId := none,
          message := "NFT status retrieved" }] := by
  obtain ⟨-, hresp, hdb⟩ := generate_nft_ok_inv hgen
  subst hresp
  subst hdb
  have hdbp : ∀ x ∈ db,
      statusPred (newResponse request now db).id request.walletAddress x = false := by
    intro x hx
    have hxid : x.id ≠ (newResponse request now db).id := hfresh x hx
    simp [statusPred, hxid]
  have hpN : statusPred (newResponse request now db).id request.walletAddress
      (newRecord request now db) = true := by
    simp [statusPred, newResponse, newRecord]
  have h1 : get_nft_status (newResponse request now db).id request.walletAddress
      (db ++ [newRecord request now db]) =
      (Except.ok (statusResponse
        (advanceRow (newResponse request now db).id (newRecord request now db))),
       db ++ [advanceRow (newResponse request now db).id (newRecord request now db)]) := by
    rw [get_nft_status_of_generating (find?_append_singleton hdbp hpN) rfl,
      updateFirst_append_singleton hdbp, if_pos hpN]
  have hpA1 : statusPred (newResponse request now db).id request.walletAddress
      (advanceRow (newResponse request now db).id (newRecord request now db)) = true := by
    have hsame : statusPred (newResponse request now db).id request.walletAddress
        (advanceRow (newResponse request now db).id (newRecord request now db)) =
        statusPred (newResponse request now db).id request.walletAddress
          (newRecord request now db) := by
      simp [statusPred, advanceRow_id, advanceRow_walletAddress]
    rw [hsame]
    exact hpN
  have h2 : get_nft_status (newResponse request now db).id request.walletAddress
      (db ++ [advanceRow (newResponse request now db).id (newRecord request now db)]) =
      (Except.ok (statusResponse
        (advanceRow (newResponse request now db).id
          (advanceRow (newResponse request now db).id (newRecord request now db)))),
       db ++ [advanceRow (newResponse request now db).id
          (advanceRow (newResponse request now db).id (newRecord request now db))]) := by
    rw [get_nft_status_of_generating (find?_append_singleton hdbp hpA1) rfl,
      updateFirst_append_singleton hdbp, if_pos hpA1]
  have hpA2 : statusPred (newResponse request now db).id request.walletAddress
      (advanceRow (newResponse request now db).id
        (advanceRow (newResponse request now db).id (newRecord request now db))) = true := by
    have hsame : statusPred (newResponse request now db).id request.walletAddress
        (advanceRow (newResponse request now db).id
          (advanceRow (newResponse request now db).id (newRecord request now db))) =
        statusPred (newResponse request now db).id request.walletAddress
          (advanceRow (newResponse request now db).id (newRecord request now db)) := by
      simp [statusPred, advanceRow_id, advanceRow_walletAddress]
    rw [hsame]
    exact hpA1
  have h3 : get_nft_status (newResponse request now db).id request.walletAddress
      (db ++ [advanceRow (newResponse request now db).id
        (advanceRow (newResponse request now db).id (newRecord request now db))]) =
      (Except.ok (statusResponse
        (advanceRow (newResponse request now db).id
          (advanceRow (newResponse request now db).id (newRecord request now db)))),
       db ++ [advanceRow (newResponse request now db).id
          (advanceRow (newResponse request now db).id (newRecord request now db))]) :=
    get_nft_status_of_done (find?_append_singleton hdbp hpA2)
      (by
        rw [show (advanceRow (newResponse request now db).id
          (advanceRow (newResponse request now db).id (newRecord request now db))).status =
            "ready" from rfl]
        decide)
  rw [advanceTrace_succ, h1]
  rw [advanceTrace_succ, h2]
  rw [advanceTrace_succ, h3]
  rw [advanceTrace_succ, h3]
  rfl

/-- C1 witness: the amended progress, status and imageUrl sequences on
the concrete demo creation. -/
theorem c1_progress_sequence_witness :
    advanceTrace demoResp.id demoReq.walletAddress demoStore1 4 =
      [Except.ok
        { id := demoResp.id, status := "generating", progress := 75, imageUrl := none,
          walletAddress := demoReq.walletAddress, contractAddress := none, tokenId := none,
          message := "NFT status retrieved" },
       Except.ok
        { id := demoResp.id, status := "ready", progress := 100,
          imageUrl := some ("https://example.com/nft/" ++ demoResp.id ++ ".png"),
          walletAddress := demoReq.walletAddress, contractAddress := none, tokenId := none,
          message := "NFT status retrieved" },
       Except.ok
        { id := demoResp.id, status := "ready", progress := 100,
          imageUrl := some ("https://example.com/nft/" ++ demoResp.id ++ ".png"),
          walletAddress := demoReq.walletAddress, contractAddress := none, tokenId := none,
          message := "NFT status retrieved" },
       Except.ok
        { id := demoResp.id, status := "ready", progress := 100,
          imageUrl := some ("https://example.com/nft/" ++ demoResp.id ++ ".png"),
          walletAddress := demoReq.walletAddress, contractAddress := none, tokenId := none,
          message := "NFT status retrieved" }] :=
  c1_progress_sequence demoReq 0 [] demoResp demoStore1 rfl (by simp)

end DogNFT
